import Mathlib

/-!
Verification of the javascript-design-patterns repository against its
natural-language specification.

The development shallowly embeds the JavaScript snippets of the repository:

* `src/creational-patterns/proxy/proxy.mjs` — the `personProxyValidation`
  proxy over the `person` record (guarded accessor);
* the Flyweight example (`createBook` in both its Map-based and Set-based
  versions, from the Flyweight document);
* the Observer example (`Observable` with `subscribe`, `unsubscribe`,
  `notify`);
* the Singleton `Counter` (only its test is in the repository, so the
  constructor is modelled from the specification).

JavaScript dynamic values are embedded as the inductive `Value`;
exceptions as `Except`/`Option` results; the mutable `person` object as
an association list threaded through the handlers.
-/

/-- A JavaScript value, restricted to the shapes that occur in the
repository snippets: numbers (the snippets only use integers), strings,
booleans, `null` and `undefined`. -/
inductive Value where
  | num (n : Int)
  | str (s : String)
  | boolV (b : Bool)
  | nullV
  | undef
deriving DecidableEq, Repr

/-- JavaScript `typeof` on an embedded value. -/
def typeofValue : Value → String
  | .num _ => "number"
  | .str _ => "string"
  | .boolV _ => "boolean"
  | .nullV => "object"
  | .undef => "undefined"

/-- JavaScript truthiness test: `undefined`, `null`, `false`, `0` and the
empty string are falsy, everything else truthy. -/
def isTruthy : Value → Bool
  | .num n => n != 0
  | .str s => s != ""
  | .boolV b => b
  | .nullV => false
  | .undef => false

/-- Errors thrown by the embedded snippets: `Error(msg)` as thrown by the
validation handlers, and the `TypeError` raised when a property is read
off `null` or `undefined`. -/
inductive JSError where
  | error (msg : String)
  | typeError
deriving DecidableEq, Repr

/-- Reading `.length` off a JavaScript value: strings expose their length,
numbers and booleans have no `length` property (the read yields
`undefined`), and reading any property off `null`/`undefined` throws a
`TypeError`. -/
def jsLength : Value → Except JSError Value
  | .str s => .ok (.num s.length)
  | .num _ => .ok .undef
  | .boolV _ => .ok .undef
  | .nullV => .error .typeError
  | .undef => .error .typeError

/-- JavaScript `<` between an embedded value and a number: numeric on
numbers; a comparison involving `undefined` evaluates to `false` (NaN
semantics). Only these cases arise in the snippets (`value.length < 2`). -/
def jsLtNum (v : Value) (k : Int) : Bool :=
  match v with
  | .num n => n < k
  | _ => false

/-- A plain JavaScript object: field names mapped to values, in property
insertion order. -/
abbrev Record := List (String × Value)

/-- Property read `obj[prop]`: the stored value, or `undefined` when the
field is absent. -/
def getField (r : Record) (p : String) : Value :=
  match r with
  | [] => .undef
  | (q, w) :: rest => if q = p then w else getField rest p

/-- Property write `obj[prop] = value`: overwrite the existing field or
append a new one. -/
def setField (r : Record) (p : String) (v : Value) : Record :=
  match r with
  | [] => [(p, v)]
  | (q, w) :: rest => if q = p then (p, v) :: rest else (q, w) :: setField rest p v

/-- The `person` object of `proxy.mjs`. -/
def person : Record :=
  [("name", .str "John Doe"), ("age", .num 42), ("nationality", .str "American")]

/-- Log events emitted via `console.log` by the proxy handlers (the
template-literal text is abstracted to its shape; logging is
observability only). -/
inductive LogEvent where
  | missingProperty
  | readValue (prop : String) (v : Value)
  | changed (prop : String) (oldV newV : Value)
deriving DecidableEq, Repr

/-- The `get` handler of `personProxyValidation` (proxy.mjs lines 19-27):
it logs one of two messages depending on the truthiness of `obj[prop]`
and — having no `return` statement — always produces `undefined`. -/
def personProxyValidationGet (r : Record) (prop : String) : Value × LogEvent :=
  let v := getField r prop
  if isTruthy v = false then
    (.undef, .missingProperty)
  else
    (.undef, .readValue prop v)

/-- The `set` handler of `personProxyValidation` (proxy.mjs lines 28-37):
rejects a non-numeric write to `age`, rejects a write to `name` whose
`length` compares below 2 (the `length` read itself may throw a
`TypeError` on `null`/`undefined`), and otherwise commits the single
field. On success it returns the updated record and the `changed` log. -/
def personProxyValidationSet (r : Record) (prop : String) (value : Value) :
    Except JSError (Record × LogEvent) :=
  if prop = "age" ∧ typeofValue value ≠ "number" then
    .error (.error "Sorry, you can only pass numeric values for age.")
  else if prop = "name" then
    match jsLength value with
    | .error e => .error e
    | .ok lv =>
      if jsLtNum lv 2 then
        .error (.error "You need to provide a valid name.")
      else
        .ok (setField r prop value, .changed prop (getField r prop) value)
  else
    .ok (setField r prop value, .changed prop (getField r prop) value)

/-- Running a guarded write against the underlying object: a thrown error
leaves the object exactly as it was (the handler only mutates in its
final `else` branch). -/
def applySet (r : Record) (prop : String) (value : Value) : Record × Option JSError :=
  match personProxyValidationSet r prop value with
  | .ok (r2, _) => (r2, none)
  | .error e => (r, some e)

/-! ## Observer: `Observable` (Observer document, `class Observable`)

Callbacks are compared by JavaScript identity (`!==`); the embedding
represents each callback by a numeric identity, and the
behaviour of a callback when invoked on a payload is given by an environment
`env : Nat → String → Option String` (`some msg` means the callback
throws `Error(msg)` on that payload, `none` means it returns normally).
-/

/-- The method `subscribe(func) { this.observers.push(func); }` — an
unconditional push onto the end of the list. -/
def subscribe (observers : List Nat) (f : Nat) : List Nat :=
  observers ++ [f]

/-- The method `unsubscribe(func)` filters the list, keeping the observers that are
not identical to `func`. -/
def unsubscribe (observers : List Nat) (f : Nat) : List Nat :=
  observers.filter (fun o => o ≠ f)

/-- The method `notify(data) { this.observers.forEach(observer => observer(data)); }`.
`forEach` invokes the callbacks in list order; an exception thrown by a
callback propagates out of `forEach` at once, so iteration stops at the
first throwing observer. The result is the list of observers actually
invoked, in order, together with the propagated error if any. -/
def notify (env : Nat → String → Option String) (observers : List Nat)
    (payload : String) : List Nat × Option String :=
  match observers with
  | [] => ([], none)
  | o :: rest =>
    match env o payload with
    | some e => ([o], some e)
    | none =>
      let r := notify env rest payload
      (o :: r.1, r.2)

/-- A mutation step on the subscriber list, for temporal statements over
operation sequences. -/
inductive ObsOp where
  | sub (f : Nat)
  | unsub (f : Nat)
deriving DecidableEq, Repr

/-- Apply one subscriber-list operation. -/
def applyOp (observers : List Nat) : ObsOp → List Nat
  | .sub f => subscribe observers f
  | .unsub f => unsubscribe observers f

/-- Apply a sequence of subscriber-list operations, oldest first. -/
def applyOps (observers : List Nat) (ops : List ObsOp) : List Nat :=
  ops.foldl applyOp observers

/-! ## Flyweight: `createBook` (Flyweight document)

JavaScript object identity is modelled by stamping every `new Book(...)`
with a fresh identity drawn from a counter in the state; two values are
the identical instance exactly when their stamps agree, and the counter
counts the constructor invocations. -/

/-- The class `Book { constructor(title, author, isbn) {...} }`, with the
identity stamp of the `new` expression that built it. -/
structure Book where
  title : String
  author : String
  isbn : String
  id : Nat
deriving DecidableEq, Repr

/-- State of the Map-based version: `const books = new Map()` plus the
constructor-invocation counter supplying identity stamps. -/
structure MapLibrary where
  books : List (String × Book)
  nextId : Nat
deriving DecidableEq, Repr

/-- The Map-based `createBook` (Flyweight document, second listing):
`books.has(isbn)` then either `books.get(isbn)` or
`new Book(...); books.set(isbn, book)`. -/
def createBook (s : MapLibrary) (title author isbn : String) : Book × MapLibrary :=
  match s.books.lookup isbn with
  | some b => (b, s)
  | none =>
    let b : Book := ⟨title, author, isbn, s.nextId⟩
    (b, ⟨s.books ++ [(isbn, b)], s.nextId + 1⟩)

/-- What the Set-based `createBook` returns: its collision branch returns
`isbnNumbers.has(isbn)` — a boolean — while its fresh branch returns the
new `Book`. -/
inductive BookOrBool where
  | book (b : Book)
  | boolVal (b : Bool)
deriving DecidableEq, Repr

/-- State of the Set-based version: `const isbnNumbers = new Set()` plus
the constructor-invocation counter. -/
structure SetLibrary where
  isbnNumbers : List String
  nextId : Nat
deriving DecidableEq, Repr

/-- The Set-based `createBook` (Flyweight document, final listing):
`const book = isbnNumbers.has(isbn); if (book) { return book; } else
{ const book = new Book(...); isbnNumbers.add(isbn); return book; }`.
On a key collision it returns the boolean `true`, not a stored `Book`
(the set stores only ISBN strings, no instances at all). -/
def createBookSet (s : SetLibrary) (title author isbn : String) :
    BookOrBool × SetLibrary :=
  if s.isbnNumbers.contains isbn then
    (.boolVal true, s)
  else
    let b : Book := ⟨title, author, isbn, s.nextId⟩
    (.book b, ⟨s.isbnNumbers ++ [isbn], s.nextId + 1⟩)

/-! ## Singleton: `Counter` -/

/-- The two lifecycle states of the single-instance constructor. -/
inductive SingletonState where
  | uninitialized
  | initialized
deriving DecidableEq, Repr

/-- The `AlreadyInitialized` error kind, carrying the message the test in
the repository expects (`new Counter()` throws
"You can only create one instance!"). -/
inductive SingletonError where
  | alreadyInitialized (msg : String)
deriving DecidableEq, Repr

/-- Modelled from the spec: `singleton.mjs` is not among the source files
(only its test is), so the `Counter` constructor (`createOnce`) is taken
from the specification — a two-state machine {Uninitialized, Initialized}
whose construction succeeds exactly when the state is Uninitialized,
moving it to Initialized, and otherwise throws `AlreadyInitialized` with
the message asserted by the test in the repository. -/
def createOnce : SingletonState → Except SingletonError SingletonState
  | .uninitialized => .ok .initialized
  | .initialized => .error (.alreadyInitialized "You can only create one instance!")

/-- One construction attempt: its success flag and the state after it
(a failed attempt leaves the state as it was). -/
def createOnceStep (s : SingletonState) : Bool × SingletonState :=
  match createOnce s with
  | .ok s2 => (true, s2)
  | .error _ => (false, s)

/-- The success flags of `n` consecutive construction attempts. -/
def createOnceTrace : Nat → SingletonState → List Bool
  | 0, _ => []
  | n + 1, s =>
    let r := createOnceStep s
    r.1 :: createOnceTrace n r.2

/-! ## Helper lemmas -/

/-- Writing one field does not disturb reads of any other field. -/
lemma getField_setField_ne (r : Record) (p g : String) (v : Value) (hpg : g ≠ p) :
    getField (setField r p v) g = getField r g := by
  induction r with
  | nil => simp [setField, getField, Ne.symm hpg]
  | cons head rest ih =>
    obtain ⟨q, w⟩ := head
    by_cases hqp : q = p
    · subst hqp
      simp [setField, getField, Ne.symm hpg]
    · simp [setField, getField, hqp, ih]

/-- A committing run of the `set` handler produced exactly `setField`. -/
lemma set_ok_committed (r : Record) (p : String) (v : Value) (r2 : Record) (lg : LogEvent)
    (hs : personProxyValidationSet r p v = Except.ok (r2, lg)) : r2 = setField r p v := by
  unfold personProxyValidationSet at hs
  split_ifs at hs with h1 h2
  · rcases hj : jsLength v with e | lv <;> rw [hj] at hs <;> dsimp only at hs
    · simp at hs
    · split_ifs at hs with h3
      simp only [Except.ok.injEq, Prod.mk.injEq] at hs
      exact hs.1.symm
  · simp only [Except.ok.injEq, Prod.mk.injEq] at hs
    exact hs.1.symm

/-- A successful guarded write committed exactly `setField`. -/
lemma applySet_fst_of_ok (r : Record) (p : String) (v : Value)
    (h : (applySet r p v).2 = none) : (applySet r p v).1 = setField r p v := by
  unfold applySet at h ⊢
  rcases hs : personProxyValidationSet r p v with e | ⟨r2, lg⟩ <;> dsimp only at h ⊢
  · rw [hs] at h
    simp at h
  · exact set_ok_committed r p v r2 lg hs

/-- Only subscribers present in the list get invoked by `notify`. -/
lemma mem_notify_invoked (env : Nat → String → Option String) (observers : List Nat)
    (payload : String) (x : Nat) :
    x ∈ (notify env observers payload).1 → x ∈ observers := by
  induction observers with
  | nil => simp [notify]
  | cons o rest ih =>
    rcases he : env o payload with _ | e
    · intro hx
      simp [notify, he] at hx
      rcases hx with hx | hx
      · simp [hx]
      · exact List.mem_cons_of_mem _ (ih hx)
    · intro hx
      simp [notify, he] at hx
      simp [hx]

/-- When no subscriber throws, `notify` invokes the whole list in order
and propagates no error. -/
lemma notify_of_all_ok (env : Nat → String → Option String) (observers : List Nat)
    (payload : String) (h : ∀ o ∈ observers, env o payload = none) :
    notify env observers payload = (observers, none) := by
  induction observers with
  | nil => rfl
  | cons o rest ih =>
    have ho : env o payload = none := h o (by simp)
    have hrest := ih (fun q hq => h q (by simp [hq]))
    simp [notify, ho, hrest]

/-- A callback is gone from the list right after `unsubscribe` removes it. -/
lemma not_mem_unsubscribe (observers : List Nat) (f : Nat) :
    f ∉ unsubscribe observers f := by
  simp [unsubscribe]

/-- An absent callback stays absent under any operation other than
re-subscribing it. -/
lemma not_mem_applyOp (observers : List Nat) (f : Nat) (op : ObsOp)
    (hf : f ∉ observers) (hop : op ≠ ObsOp.sub f) : f ∉ applyOp observers op := by
  cases op with
  | sub g =>
    have hg : ¬ f = g := fun h => hop (by simp [h])
    simp [applyOp, subscribe, hf, hg]
  | unsub g =>
    intro hmem
    exact hf (List.mem_of_mem_filter hmem)

/-- An absent callback stays absent across any operation sequence that
never re-subscribes it. -/
lemma not_mem_applyOps (observers : List Nat) (f : Nat) (ops : List ObsOp)
    (hf : f ∉ observers) (hops : ∀ op ∈ ops, op ≠ ObsOp.sub f) :
    f ∉ applyOps observers ops := by
  induction ops generalizing observers with
  | nil => simpa [applyOps]
  | cons op rest ih =>
    have h1 : f ∉ applyOp observers op := not_mem_applyOp observers f op hf (hops op (by simp))
    have h2 := ih (applyOp observers op) h1 (fun q hq => hops q (by simp [hq]))
    simpa [applyOps] using h2

/-! ## Claim theorems -/

/-- C3: for every record and every non-numeric value, a guarded write to
the field "age" throws the ValidationError
"Sorry, you can only pass numeric values for age." synchronously and
leaves the whole underlying record — in particular its "age" field — at
its prior value. -/
theorem c3_age_write_nonnumeric_rejected (r : Record) (v : Value)
    (h : typeofValue v ≠ "number") :
    applySet r "age" v
      = (r, some (.error "Sorry, you can only pass numeric values for age.")) := by
  unfold applySet personProxyValidationSet
  rw [if_pos ⟨rfl, h⟩]

/-- C3 witness: writing the string "43" to "age" on the `person` object
fails with the ValidationError and leaves `person` unchanged (the
scenario of the repository test). -/
theorem c3_witness :
    applySet person "age" (.str "43")
      = (person, some (.error "Sorry, you can only pass numeric values for age.")) :=
  c3_age_write_nonnumeric_rejected person (.str "43") (by decide)

/-- C6: for every record and every value whose `length` read yields a
number below 2, a guarded write to the field "name" throws the
ValidationError "You need to provide a valid name." and leaves the whole
underlying record — in particular its "name" field — unchanged. -/
theorem c6_name_write_short_rejected (r : Record) (v : Value) (n : Int)
    (hlen : jsLength v = .ok (.num n)) (hn : n < 2) :
    applySet r "name" v
      = (r, some (.error "You need to provide a valid name.")) := by
  unfold applySet personProxyValidationSet
  rw [if_neg (by simp), if_pos rfl, hlen]
  dsimp only
  rw [if_pos (by simpa [jsLtNum] using hn)]

/-- C6 witness: writing the empty string to "name" on the `person` object
fails with the ValidationError and leaves `person` unchanged. -/
theorem c6_witness :
    applySet person "name" (.str "")
      = (person, some (.error "You need to provide a valid name.")) :=
  c6_name_write_short_rejected person (.str "") 0 rfl (by decide)

/-- C8: a successful guarded write touches only the written field — every
other field reads the same after the write as before it. -/
theorem c8_successful_write_frame (r : Record) (p : String) (v : Value)
    (hok : (applySet r p v).2 = none) (g : String) (hg : g ≠ p) :
    getField (applySet r p v).1 g = getField r g := by
  rw [applySet_fst_of_ok r p v hok]
  exact getField_setField_ne r p g v hg

/-- C8 witness: the valid write of 43 to "age" on `person` succeeds and
leaves the "name" field reading exactly as before. -/
theorem c8_witness :
    (applySet person "age" (.num 43)).2 = none
    ∧ getField (applySet person "age" (.num 43)).1 "name" = getField person "name" :=
  ⟨rfl, c8_successful_write_frame person "age" (.num 43) rfl "name" (by decide)⟩

/-- C9: every read through `personProxyValidation` yields `undefined` —
its get handler logs but never returns the stored value — including for
the field "name", which is present on the underlying `person` object
with the defined value "John Doe". -/
theorem c9_validation_get_returns_undefined :
    (∀ r p, (personProxyValidationGet r p).1 = Value.undef)
    ∧ getField person "name" = Value.str "John Doe"
    ∧ (personProxyValidationGet person "name").1 = Value.undef := by
  refine ⟨fun r p => ?_, rfl, rfl⟩
  by_cases h : isTruthy (getField r p) = false <;>
    simp [personProxyValidationGet, h]

/-- C10: a non-null value on which the `length` read yields `undefined`
(for example any number) bypasses the length validation of the "name"
branch — `undefined < 2` is false — and is committed to the underlying
record without error. -/
theorem c10_name_write_no_length_commits (r : Record) (v : Value)
    (h : jsLength v = Except.ok Value.undef) :
    applySet r "name" v = (setField r "name" v, none) := by
  unfold applySet personProxyValidationSet
  rw [if_neg (by simp), if_pos rfl, h]
  dsimp only
  rw [if_neg (by simp [jsLtNum])]

/-- C10 witness: writing the number 7 to "name" on the `person` object
commits without error even though 7 has no `length` property. -/
theorem c10_witness :
    applySet person "name" (.num 7) = (setField person "name" (.num 7), none) :=
  c10_name_write_no_length_commits person (.num 7) rfl

/-- An environment in which callback 0 throws "boom" on every payload and
every other callback returns normally. -/
def envBoom : Nat → String → Option String :=
  fun o _ => if o = 0 then some "boom" else none

/-- An environment in which every callback returns normally. -/
def envOk : Nat → String → Option String :=
  fun _ _ => none

/-- C4 counterexample: with the current subscribers [0, 1] and subscriber
0 throwing, `notify` does not invoke the later subscriber 1 at all, and
the error surfaced to the caller is the raw error of subscriber 0 raised
mid-iteration, not an aggregate. -/
theorem c4_counterexample :
    (1 : Nat) ∉ (notify envBoom [0, 1] "payload").1
    ∧ (notify envBoom [0, 1] "payload").2 = some "boom" := by
  constructor
  · decide
  · rfl

/-- C4 (amended): `notify` invokes the subscribers in order only up to and
including the first one that throws; that error propagates to the caller
immediately and the later subscribers are not invoked at all. -/
theorem c4_notify_stops_at_first_throw (env : Nat → String → Option String)
    (pre : List Nat) (o : Nat) (post : List Nat) (payload : String) (e : String)
    (hpre : ∀ p ∈ pre, env p payload = none) (ho : env o payload = some e) :
    notify env (pre ++ o :: post) payload = (pre ++ [o], some e) := by
  induction pre with
  | nil => simp [notify, ho]
  | cons p ps ih =>
    have hp : env p payload = none := hpre p (by simp)
    have hrest := ih (fun q hq => hpre q (by simp [hq]))
    simp [notify, hp, hrest]

/-- C4 witness: with subscribers [2, 0, 1] under `envBoom`, notify invokes
2 then 0 and stops there with the error of 0. -/
theorem c4_witness :
    notify envBoom [2, 0, 1] "payload" = ([2, 0], some "boom") := by
  have h := c4_notify_stops_at_first_throw envBoom [2] 0 [1] "payload" "boom"
    (by decide) (by decide)
  simpa using h

/-- C5 counterexample: subscribing callback 0 a second time does not leave
the subscriber list unchanged, and a subsequent `notify` invokes it
twice, not once. -/
theorem c5_counterexample :
    subscribe (subscribe [] 0) 0 ≠ subscribe [] 0
    ∧ ((notify envOk (subscribe (subscribe [] 0) 0) "payload").1.count 0 = 2) := by
  constructor
  · decide
  · rfl

/-- C5 (amended): `subscribe` appends unconditionally (no presence check),
so subscribing the same callback twice appends it twice, and a subsequent
`notify` in which no subscriber throws invokes that callback exactly two
more times than it was already subscribed. -/
theorem c5_subscribe_always_appends (observers : List Nat) (f : Nat)
    (env : Nat → String → Option String) (payload : String)
    (h : ∀ o ∈ subscribe (subscribe observers f) f, env o payload = none) :
    subscribe (subscribe observers f) f = observers ++ [f, f]
    ∧ (notify env (subscribe (subscribe observers f) f) payload).1.count f
        = observers.count f + 2 := by
  have hlist : subscribe (subscribe observers f) f = observers ++ [f, f] := by
    simp [subscribe]
  refine ⟨hlist, ?_⟩
  rw [notify_of_all_ok env _ payload h, hlist]
  simp [List.count_append]

/-- C5 witness: subscribing callback 0 twice from the empty list and
notifying under `envOk` invokes it exactly twice. -/
theorem c5_witness :
    subscribe (subscribe [] 0) 0 = [] ++ [0, 0]
    ∧ (notify envOk (subscribe (subscribe [] 0) 0) "payload").1.count 0
        = List.count 0 [] + 2 :=
  c5_subscribe_always_appends [] 0 envOk "payload" (by decide)

/-- C7: after `unsubscribe` removes a callback, any sequence of further
subscribe/unsubscribe operations that never re-subscribes that callback
leaves it absent, so no subsequent `notify` ever invokes it. -/
theorem c7_unsubscribed_never_notified (observers : List Nat) (f : Nat)
    (ops : List ObsOp) (env : Nat → String → Option String) (payload : String)
    (hops : ∀ op ∈ ops, op ≠ ObsOp.sub f) :
    f ∉ (notify env (applyOps (unsubscribe observers f) ops) payload).1 := by
  intro hmem
  have h1 : f ∉ unsubscribe observers f := not_mem_unsubscribe observers f
  have h2 : f ∉ applyOps (unsubscribe observers f) ops :=
    not_mem_applyOps (unsubscribe observers f) f ops h1 hops
  exact h2 (mem_notify_invoked env _ payload f hmem)

/-- C7 witness: after unsubscribing callback 5 from [5], subscribing and
unsubscribing an unrelated callback 3 and then notifying never invokes 5. -/
theorem c7_witness :
    (5 : Nat) ∉ (notify envOk
      (applyOps (unsubscribe [5] 5) [ObsOp.sub 3, ObsOp.unsub 3]) "payload").1 :=
  c7_unsubscribed_never_notified [5] 5 [ObsOp.sub 3, ObsOp.unsub 3] envOk "payload"
    (by decide)

/-- Appending a fresh key at the end of an association list makes it
found by lookup. -/
lemma lookup_append_self (l : List (String × Book)) (i : String) (b : Book)
    (h : List.lookup i l = none) : List.lookup i (l ++ [(i, b)]) = some b := by
  induction l with
  | nil => simp [List.lookup]
  | cons hd tl ih =>
    obtain ⟨k, c⟩ := hd
    cases hk : (i == k) with
    | true => simp [List.lookup, hk] at h
    | false =>
      simp only [List.cons_append, List.lookup, hk] at h ⊢
      exact ih h

/-- C1: the Map-based `createBook` is a true `getOrCreate` — calling it a
second time with the same isbn returns the very Book of the first call
(same identity stamp) and leaves the library state untouched, so the
constructor runs at most once per isbn; the Set-based `createBook`,
however, returns the boolean `true` on a key collision instead of the
stored Book instance. -/
theorem c1_createBook_flyweight :
    (∀ s t a i, createBook (createBook s t a i).2 t a i
        = ((createBook s t a i).1, (createBook s t a i).2))
    ∧ (createBookSet (createBookSet ⟨[], 0⟩ "Harry Potter" "JK Rowling" "AB123").2
        "Harry Potter" "JK Rowling" "AB123").1 = BookOrBool.boolVal true := by
  constructor
  · intro s t a i
    rcases hl : List.lookup i s.books with _ | b
    · simp [createBook, hl, lookup_append_self s.books i _ hl]
    · simp [createBook, hl]
  · rfl

/-- The construction trace from the Initialized state is all failures. -/
lemma createOnceTrace_initialized (n : Nat) :
    createOnceTrace n SingletonState.initialized = List.replicate n false := by
  induction n with
  | zero => rfl
  | succ k ih => simp [createOnceTrace, createOnceStep, createOnce, ih, List.replicate_succ]

/-- C2: the single-instance constructor succeeds exactly once — in any run
of construction attempts from the Uninitialized state, the first succeeds
and every later one fails; a construction attempt in the Initialized
state throws AlreadyInitialized with the message the repository test
expects, and the Initialized state is never left (the one transition is
one-way). -/
theorem c2_createOnce_exactly_once :
    (∀ n, createOnceTrace (n + 1) SingletonState.uninitialized
        = true :: List.replicate n false)
    ∧ createOnce SingletonState.initialized
        = Except.error (.alreadyInitialized "You can only create one instance!")
    ∧ (createOnceStep SingletonState.initialized).2 = SingletonState.initialized := by
  refine ⟨fun n => ?_, rfl, rfl⟩
  simp [createOnceTrace, createOnceStep, createOnce, createOnceTrace_initialized]
